import Mathlib

/-!
Verification development for the ask-answer-hub repository: a shallow
embedding of the vote-ledger trigger (`update_question_votes`), the
row-level-security policy predicates, the client-side handlers for
answers and role management, and the `notify-department-admins`
serverless function. UUID identifiers are modelled as `Nat`; SQL rows
become Lean structures; each SQL statement or handler becomes a pure
state transition.
-/

namespace AskAnswerHub

/-! ### Vote ledger and the `update_question_votes` trigger

`public.votes` has columns (question_id, user_id, vote_type) with
`vote_type ∈ \x7b'up','down'\x7d` and `UNIQUE (question_id, user_id)`.
`public.questions` carries denormalized `upvotes` / `downvotes`
INTEGER counters, maintained by the AFTER INSERT OR UPDATE OR DELETE
trigger `update_votes_trigger` running `update_question_votes` once
per affected row. -/

inductive VoteType where
  | up
  | down
deriving DecidableEq, Repr

structure Vote where
  question_id : Nat
  user_id : Nat
  vote_type : VoteType
deriving DecidableEq, Repr

/-- The mutable state the trigger touches: the `votes` table (ledger)
and, for each question id, its two counters (SQL INTEGER, so `Int`). -/
structure VoteDB where
  ledger : List Vote
  upvotes : Nat → Int
  downvotes : Nat → Int

/-- Pointwise counter update: `UPDATE questions SET c = c + d WHERE id = q`. -/
def bump (f : Nat → Int) (q : Nat) (d : Int) : Nat → Int :=
  fun x => if x = q then f x + d else f x

/-- The `TG_OP = 'INSERT'` branch of `update_question_votes`. -/
def update_question_votes_ins (db : VoteDB) (new : Vote) : VoteDB :=
  if new.vote_type = .up then
    { db with upvotes := bump db.upvotes new.question_id 1 }
  else
    { db with downvotes := bump db.downvotes new.question_id 1 }

/-- The `TG_OP = 'DELETE'` branch of `update_question_votes`. -/
def update_question_votes_del (db : VoteDB) (old : Vote) : VoteDB :=
  if old.vote_type = .up then
    { db with upvotes := bump db.upvotes old.question_id (-1) }
  else
    { db with downvotes := bump db.downvotes old.question_id (-1) }

/-- The `TG_OP = 'UPDATE'` branch: decrement the OLD row's counter,
then increment the NEW row's counter, inside one trigger execution. -/
def update_question_votes_upd (db : VoteDB) (old new : Vote) : VoteDB :=
  update_question_votes_ins (update_question_votes_del db old) new

/-- Row predicate for `WHERE question_id = q AND user_id = u`. -/
def voteKeyMatch (q u : Nat) (v : Vote) : Bool :=
  decide (v.question_id = q) && decide (v.user_id = u)

def findVote (l : List Vote) (q u : Nat) : Option Vote :=
  l.find? (voteKeyMatch q u)

/-- Replace the vote type of the (unique) row matching the key.
`UPDATE votes SET vote_type = t WHERE question_id = q AND user_id = u`. -/
def setVoteType (l : List Vote) (q u : Nat) (t : VoteType) : List Vote :=
  match l with
  | [] => []
  | v :: rest =>
      if voteKeyMatch q u v then { v with vote_type := t } :: rest
      else v :: setVoteType rest q u t

/-- `INSERT INTO votes`: the `UNIQUE (question_id, user_id)` constraint
aborts the statement when a row with the key exists (no trigger fires);
otherwise the row is added and the AFTER INSERT trigger runs. -/
def insertVote (db : VoteDB) (v : Vote) : VoteDB :=
  match findVote db.ledger v.question_id v.user_id with
  | some _ => db
  | none => update_question_votes_ins { db with ledger := v :: db.ledger } v

/-- `DELETE FROM votes WHERE question_id = q AND user_id = u`: at most
one row matches (unique key); if present it is removed and the AFTER
DELETE trigger runs with OLD = that row. -/
def deleteVote (db : VoteDB) (q u : Nat) : VoteDB :=
  match findVote db.ledger q u with
  | none => db
  | some old =>
      update_question_votes_del
        { db with ledger := db.ledger.eraseP (voteKeyMatch q u) } old

/-- `UPDATE votes SET vote_type = t WHERE question_id = q AND user_id = u`:
at most one row matches; if present its type is replaced and the AFTER
UPDATE trigger runs with OLD = the found row, NEW = the row with type `t`. -/
def updateVoteType (db : VoteDB) (q u : Nat) (t : VoteType) : VoteDB :=
  match findVote db.ledger q u with
  | none => db
  | some old =>
      update_question_votes_upd
        { db with ledger := setVoteType db.ledger q u t }
        old { old with vote_type := t }

/-- Number of ledger rows for question `q` with type `t`:
`count(votes where question_id = q and vote_type = t)`. -/
def countVotes (l : List Vote) (q : Nat) (t : VoteType) : Nat :=
  l.countP (fun v => decide (v.question_id = q) && decide (v.vote_type = t))

/-- A question starts with zero counters and the ledger empty. -/
def initialVoteDB : VoteDB :=
  { ledger := [], upvotes := fun _ => 0, downvotes := fun _ => 0 }

/-- The vote-ledger statements a client can issue. -/
inductive VoteOp where
  | ins (v : Vote)
  | del (q u : Nat)
  | upd (q u : Nat) (t : VoteType)
deriving Repr

def applyVoteOp (db : VoteDB) : VoteOp → VoteDB
  | .ins v => insertVote db v
  | .del q u => deleteVote db q u
  | .upd q u t => updateVoteType db q u t

def runVoteOps (ops : List VoteOp) : VoteDB :=
  ops.foldl applyVoteOp initialVoteDB

/-- Counter/ledger agreement for every question. -/
def countersOk (db : VoteDB) : Prop :=
  ∀ q, db.upvotes q = (countVotes db.ledger q .up : Int) ∧
       db.downvotes q = (countVotes db.ledger q .down : Int)

lemma countVotes_cons (v : Vote) (l : List Vote) (q : Nat) (t : VoteType) :
    countVotes (v :: l) q t
      = countVotes l q t + (if v.question_id = q ∧ v.vote_type = t then 1 else 0) := by
  simp [countVotes, List.countP_cons]

lemma findVote_some {l : List Vote} {q u : Nat} {v : Vote}
    (h : findVote l q u = some v) : v.question_id = q ∧ v.user_id = u := by
  have hp := List.find?_some h
  simpa [voteKeyMatch] using hp

lemma countVotes_eraseP {l : List Vote} {q u : Nat} {old : Vote}
    (h : findVote l q u = some old) (q' : Nat) (t : VoteType) :
    countVotes (l.eraseP (voteKeyMatch q u)) q' t
      + (if old.question_id = q' ∧ old.vote_type = t then 1 else 0)
      = countVotes l q' t := by
  induction l with
  | nil => simp [findVote] at h
  | cons v rest ih =>
    by_cases hv : voteKeyMatch q u v = true
    · rw [findVote, List.find?_cons_of_pos _ hv] at h
      obtain rfl : v = old := by injection h
      rw [List.eraseP_cons_of_pos hv, countVotes_cons]
    · rw [findVote, List.find?_cons_of_neg _ hv] at h
      have ih2 := ih h
      rw [List.eraseP_cons_of_neg hv, countVotes_cons, countVotes_cons]
      omega

lemma countVotes_setVoteType {l : List Vote} {q u : Nat} {old : Vote}
    (h : findVote l q u = some old) (tn : VoteType) (q' : Nat) (t : VoteType) :
    countVotes (setVoteType l q u tn) q' t
      + (if old.question_id = q' ∧ old.vote_type = t then 1 else 0)
      = countVotes l q' t
      + (if old.question_id = q' ∧ tn = t then 1 else 0) := by
  induction l with
  | nil => simp [findVote] at h
  | cons v rest ih =>
    by_cases hv : voteKeyMatch q u v = true
    · rw [findVote, List.find?_cons_of_pos _ hv] at h
      obtain rfl : v = old := by injection h
      rw [setVoteType, if_pos hv, countVotes_cons, countVotes_cons]
      split_ifs <;> simp_all
    · rw [findVote, List.find?_cons_of_neg _ hv] at h
      have ih2 := ih h
      rw [setVoteType, if_neg hv, countVotes_cons, countVotes_cons]
      omega

lemma countersOk_insertVote {db : VoteDB} (h : countersOk db) (v : Vote) :
    countersOk (insertVote db v) := by
  unfold insertVote
  cases hf : findVote db.ledger v.question_id v.user_id with
  | some w => exact h
  | none =>
    intro q
    obtain ⟨hu, hd⟩ := h q
    obtain ⟨vq, vu, vt⟩ := v
    cases vt <;> by_cases hq : q = vq
    all_goals
      first
      | (subst hq
         simp_all [update_question_votes_ins, bump, countVotes_cons])
      | (have hq2 : ¬vq = q := fun hh => hq hh.symm
         simp_all [update_question_votes_ins, bump, countVotes_cons])

lemma countersOk_deleteVote {db : VoteDB} (h : countersOk db) (q u : Nat) :
    countersOk (deleteVote db q u) := by
  unfold deleteVote
  cases hf : findVote db.ledger q u with
  | none => exact h
  | some old =>
    intro q'
    obtain ⟨hu, hd⟩ := h q'
    have hup := countVotes_eraseP hf q' VoteType.up
    have hdn := countVotes_eraseP hf q' VoteType.down
    obtain ⟨oq, ou, ot⟩ := old
    cases ot <;> by_cases hq : q' = oq
    all_goals
      first
      | (subst hq
         simp_all [update_question_votes_del, bump] <;> omega)
      | (have hq2 : ¬oq = q' := fun hh => hq hh.symm
         simp_all [update_question_votes_del, bump] <;> omega)

lemma countersOk_updateVoteType {db : VoteDB} (h : countersOk db) (q u : Nat)
    (t : VoteType) : countersOk (updateVoteType db q u t) := by
  unfold updateVoteType
  cases hf : findVote db.ledger q u with
  | none => exact h
  | some old =>
    intro q'
    obtain ⟨hu, hd⟩ := h q'
    have hup := countVotes_setVoteType hf t q' VoteType.up
    have hdn := countVotes_setVoteType hf t q' VoteType.down
    obtain ⟨oq, ou, ot⟩ := old
    cases ot <;> cases t <;> by_cases hq : q' = oq
    all_goals
      first
      | (subst hq
         simp_all [update_question_votes_upd, update_question_votes_del,
           update_question_votes_ins, bump] <;> omega)
      | (have hq2 : ¬oq = q' := fun hh => hq hh.symm
         simp_all [update_question_votes_upd, update_question_votes_del,
           update_question_votes_ins, bump] <;> omega)

lemma countersOk_applyVoteOp {db : VoteDB} (h : countersOk db) (op : VoteOp) :
    countersOk (applyVoteOp db op) := by
  cases op with
  | ins v => exact countersOk_insertVote h v
  | del q u => exact countersOk_deleteVote h q u
  | upd q u t => exact countersOk_updateVoteType h q u t

lemma countersOk_initial : countersOk initialVoteDB := by
  intro q
  simp [initialVoteDB, countVotes]

lemma countersOk_foldl {db : VoteDB} (h : countersOk db) (ops : List VoteOp) :
    countersOk (ops.foldl applyVoteOp db) := by
  induction ops generalizing db with
  | nil => exact h
  | cons op rest ih => exact ih (countersOk_applyVoteOp h op)

/-- C1: starting from a question with zero counters and an empty vote
ledger, after any sequence of vote inserts, updates and deletes, every
question's `upvotes` counter equals the number of ledger rows of type
`up` for it and its `downvotes` counter equals the number of rows of
type `down`, as maintained by the `update_question_votes` trigger. -/
theorem vote_counters_match_ledger (ops : List VoteOp) (q : Nat) :
    (runVoteOps ops).upvotes q
        = (countVotes (runVoteOps ops).ledger q VoteType.up : Int) ∧
    (runVoteOps ops).downvotes q
        = (countVotes (runVoteOps ops).ledger q VoteType.down : Int) :=
  countersOk_foldl countersOk_initial ops q

/-- C2: changing an existing vote on question `q` from `up` to `down`
is one transition of the model (the trigger's two counter updates run
inside a single statement), and its effect on the counters is exactly
the delta (upvotes − 1, downvotes + 1) on `q`, with every other
question's counters unchanged — in particular no reachable state has
both counters decremented or both incremented. -/
theorem vote_update_up_to_down_delta (db : VoteDB) (q u : Nat) (old : Vote)
    (hf : findVote db.ledger q u = some old) (ht : old.vote_type = VoteType.up) :
    (updateVoteType db q u VoteType.down).upvotes q = db.upvotes q - 1 ∧
    (updateVoteType db q u VoteType.down).downvotes q = db.downvotes q + 1 ∧
    ∀ q2, q2 ≠ q →
      (updateVoteType db q u VoteType.down).upvotes q2 = db.upvotes q2 ∧
      (updateVoteType db q u VoteType.down).downvotes q2 = db.downvotes q2 := by
  obtain ⟨hq, -⟩ := findVote_some hf
  unfold updateVoteType
  rw [hf]
  refine ⟨?_, ?_, ?_⟩
  · simp_all [update_question_votes_upd, update_question_votes_del,
      update_question_votes_ins, bump]
    omega
  · simp_all [update_question_votes_upd, update_question_votes_del,
      update_question_votes_ins, bump]
  · intro q2 hq2
    constructor <;>
      simp_all [update_question_votes_upd, update_question_votes_del,
        update_question_votes_ins, bump]

/-- A concrete one-vote state used to instantiate `vote_update_up_to_down_delta`. -/
def voteWitnessDB : VoteDB :=
  { ledger := [⟨1, 2, VoteType.up⟩]
    upvotes := fun x => if x = 1 then 1 else 0
    downvotes := fun _ => 0 }

theorem vote_update_up_to_down_delta_witness :
    (updateVoteType voteWitnessDB 1 2 VoteType.down).upvotes 1
        = voteWitnessDB.upvotes 1 - 1 ∧
    (updateVoteType voteWitnessDB 1 2 VoteType.down).downvotes 1
        = voteWitnessDB.downvotes 1 + 1 :=
  ⟨(vote_update_up_to_down_delta voteWitnessDB 1 2 ⟨1, 2, VoteType.up⟩ rfl rfl).1,
   (vote_update_up_to_down_delta voteWitnessDB 1 2 ⟨1, 2, VoteType.up⟩ rfl rfl).2.1⟩

/-! ### Roles and the authorization predicates

`public.user_roles` holds (user_id, role) pairs with
`UNIQUE (user_id, role)`; `public.has_role` and
`public.is_admin_or_responder` are the SQL helper functions used by
the row-level-security policies. -/

inductive AppRole where
  | admin
  | responder
  | employee
deriving DecidableEq, Repr

/-- The `user_roles` table: (user_id, role) pairs. -/
abbrev RoleStore := List (Nat × AppRole)

/-- `public.has_role(_user_id, _role)`: EXISTS a `user_roles` row. -/
def has_role (s : RoleStore) (uid : Nat) (r : AppRole) : Bool :=
  s.any (fun p => decide (p.1 = uid) && decide (p.2 = r))

/-- `public.is_admin_or_responder(_user_id)`: EXISTS a row with
`role IN ('admin', 'responder')`. -/
def is_admin_or_responder (s : RoleStore) (uid : Nat) : Bool :=
  s.any (fun p =>
    decide (p.1 = uid) && (decide (p.2 = AppRole.admin) || decide (p.2 = AppRole.responder)))

/-! ### Question insert policy

Final state of the "Authenticated users can create questions" INSERT
policy (migration 20260130122658, which drops every earlier version):
`WITH CHECK ((is_anonymous = true AND author_id IS NULL) OR
(is_anonymous = false AND auth.uid() = author_id))`, for role
`authenticated`. `auth.uid() = author_id` is not satisfied when
`author_id` is NULL. -/

def canInsertQuestion (callerUid : Nat) (is_anonymous : Bool)
    (author_id : Option Nat) : Bool :=
  (is_anonymous && author_id.isNone)
    || (!is_anonymous && decide (author_id = some callerUid))

/-- C3: for every authenticated caller, inserting a question with the
anonymous flag true and a non-null author is rejected, and inserting
with the anonymous flag false and an author different from the caller
(including a null author) is rejected; the two remaining shapes
(anonymous with null author, non-anonymous with author = caller) pass
the policy check. -/
theorem question_insert_policy_shapes (caller : Nat) (anon : Bool)
    (author : Option Nat) :
    (anon = true → author ≠ none → canInsertQuestion caller anon author = false) ∧
    (anon = false → author ≠ some caller → canInsertQuestion caller anon author = false) ∧
    (anon = true → author = none → canInsertQuestion caller anon author = true) ∧
    (anon = false → author = some caller → canInsertQuestion caller anon author = true) := by
  refine ⟨?_, ?_, ?_, ?_⟩ <;> rintro rfl h <;>
    simp_all [canInsertQuestion, Option.isNone_iff_eq_none,
      Option.ne_none_iff_isSome]

theorem question_insert_policy_shapes_witness :
    canInsertQuestion 7 true (some 7) = false ∧
    canInsertQuestion 7 false (some 8) = false ∧
    canInsertQuestion 7 true none = true ∧
    canInsertQuestion 7 false (some 7) = true :=
  ⟨(question_insert_policy_shapes 7 true (some 7)).1 rfl (by simp),
   (question_insert_policy_shapes 7 false (some 8)).2.1 rfl (by simp),
   (question_insert_policy_shapes 7 true none).2.2.1 rfl rfl,
   (question_insert_policy_shapes 7 false (some 7)).2.2.2 rfl rfl⟩

/-! ### Answer creation

RLS INSERT policy "Responders and admins can create answers":
`WITH CHECK (is_admin_or_responder(auth.uid()) AND auth.uid() = author_id)`.
The client (`handleSubmitAnswer` in QuestionDetail.tsx) inserts the row
`\x7b question_id: id, content, author_id: user.id, is_official: isResponder \x7d`
where `isResponder` is the useAuth flag
`roles.includes('responder') || roles.includes('admin')`. -/

structure AnswerRow where
  question_id : Nat
  content : String
  author_id : Nat
  is_official : Bool
deriving DecidableEq, Repr

/-- The useAuth `isResponder` flag for a user, recomputed from the
role store at submission time. -/
def clientIsResponder (s : RoleStore) (uid : Nat) : Bool :=
  has_role s uid AppRole.responder || has_role s uid AppRole.admin

/-- WITH CHECK clause of "Responders and admins can create answers". -/
def answersInsertCheck (s : RoleStore) (callerUid : Nat) (row : AnswerRow) : Bool :=
  is_admin_or_responder s callerUid && decide (callerUid = row.author_id)

/-- `handleSubmitAnswer`: build the row the client inserts and run it
through the RLS insert check; `none` models the rejected insert. -/
def handleSubmitAnswer (s : RoleStore) (uid qid : Nat) (content : String) :
    Option AnswerRow :=
  let row : AnswerRow :=
    { question_id := qid, content := content, author_id := uid
      is_official := clientIsResponder s uid }
  if answersInsertCheck s uid row then some row else none

lemma clientIsResponder_eq (s : RoleStore) (uid : Nat) :
    clientIsResponder s uid = is_admin_or_responder s uid := by
  rw [Bool.eq_iff_iff]
  simp only [clientIsResponder, Bool.or_eq_true, has_role, is_admin_or_responder,
    List.any_eq_true, Bool.and_eq_true, Bool.or_eq_true, decide_eq_true_eq]
  constructor
  · rintro (⟨p, hp, h1, h2⟩ | ⟨p, hp, h1, h2⟩)
    · exact ⟨p, hp, h1, Or.inr h2⟩
    · exact ⟨p, hp, h1, Or.inl h2⟩
  · rintro ⟨p, hp, h1, h2 | h2⟩
    · exact Or.inr ⟨p, hp, h1, h2⟩
    · exact Or.inl ⟨p, hp, h1, h2⟩

/-- C4: an identity holding neither the responder nor the admin role
cannot create an answer through `handleSubmitAnswer` (the RLS check
rejects the insert); an identity holding responder or admin creates an
answer, and every created answer has `is_official = true` exactly when
the author held responder or admin at posting time. -/
theorem answer_official_iff_responder (s : RoleStore) (uid qid : Nat)
    (content : String) :
    (is_admin_or_responder s uid = false →
      handleSubmitAnswer s uid qid content = none) ∧
    (is_admin_or_responder s uid = true →
      ∃ row, handleSubmitAnswer s uid qid content = some row ∧
        row.is_official = true) ∧
    (∀ row, handleSubmitAnswer s uid qid content = some row →
      (row.is_official = true ↔ is_admin_or_responder s uid = true)) := by
  refine ⟨?_, ?_, ?_⟩
  · intro h
    simp [handleSubmitAnswer, answersInsertCheck, h]
  · intro h
    refine ⟨{ question_id := qid, content := content, author_id := uid
              is_official := clientIsResponder s uid }, ?_, ?_⟩
    · simp [handleSubmitAnswer, answersInsertCheck, h]
    · simp [clientIsResponder_eq, h]
  · intro row hrow
    simp only [handleSubmitAnswer, answersInsertCheck] at hrow
    by_cases h : is_admin_or_responder s uid = true
    · simp [h] at hrow
      rw [← hrow]
      simp [clientIsResponder_eq, h]
    · simp [Bool.not_eq_true] at h
      simp [h] at hrow

theorem answer_official_iff_responder_witness :
    (is_admin_or_responder [(1, AppRole.employee)] 1 = false →
      handleSubmitAnswer [(1, AppRole.employee)] 1 5 "a" = none) ∧
    is_admin_or_responder [(1, AppRole.employee)] 1 = false ∧
    handleSubmitAnswer [(1, AppRole.employee)] 1 5 "a" = none :=
  ⟨(answer_official_iff_responder [(1, AppRole.employee)] 1 5 "a").1,
   by decide,
   (answer_official_iff_responder [(1, AppRole.employee)] 1 5 "a").1 (by decide)⟩

/-! ### Role management (Admin.tsx / UserManagement.tsx)

`handleRemoveRole` guards `role === 'employee'` before issuing any
delete; `handleAddRole` inserts, with the `UNIQUE (user_id, role)`
constraint rejecting duplicates (error 23505, state unchanged);
`handleToggleAdmin` / `handleToggleResponder` delete or insert only
the `admin` / `responder` row; adding a department admin upserts the
`responder` role. -/

/-- `DELETE FROM user_roles WHERE user_id = uid AND role = r`. -/
def deleteRoleRows (s : RoleStore) (uid : Nat) (r : AppRole) : RoleStore :=
  s.filter (fun p => !(decide (p.1 = uid) && decide (p.2 = r)))

/-- `handleRemoveRole` (Admin.tsx): refuse to remove the `employee`
role before issuing any delete; otherwise delete the (user, role) row.
`false` in the first component models the "Cannot remove employee
role" rejection. The guard does not depend on the acting identity. -/
def handleRemoveRole (s : RoleStore) (uid : Nat) (r : AppRole) :
    Bool × RoleStore :=
  if r = AppRole.employee then (false, s)
  else (true, deleteRoleRows s uid r)

/-- `handleAddRole` (Admin.tsx): insert (user, role); the unique
constraint leaves the store unchanged when the row exists. -/
def handleAddRole (s : RoleStore) (uid : Nat) (r : AppRole) : RoleStore :=
  if has_role s uid r then s else (uid, r) :: s

/-- `handleToggleAdmin` (UserManagement.tsx). -/
def handleToggleAdmin (s : RoleStore) (uid : Nat) : RoleStore :=
  if has_role s uid AppRole.admin then deleteRoleRows s uid AppRole.admin
  else (uid, AppRole.admin) :: s

/-- `handleToggleResponder` (UserManagement.tsx). -/
def handleToggleResponder (s : RoleStore) (uid : Nat) : RoleStore :=
  if has_role s uid AppRole.responder then deleteRoleRows s uid AppRole.responder
  else (uid, AppRole.responder) :: s

/-- `handleAddDepartmentAdmin`'s role upsert: ensure `responder`. -/
def upsertResponderRole (s : RoleStore) (uid : Nat) : RoleStore :=
  if has_role s uid AppRole.responder then s else (uid, AppRole.responder) :: s

/-- The repository's role-store mutations. -/
inductive RoleOp where
  | addRole (uid : Nat) (r : AppRole)
  | removeRole (uid : Nat) (r : AppRole)
  | toggleAdmin (uid : Nat)
  | toggleResponder (uid : Nat)
  | upsertResponder (uid : Nat)
deriving Repr

def applyRoleOp (s : RoleStore) : RoleOp → RoleStore
  | .addRole uid r => handleAddRole s uid r
  | .removeRole uid r => (handleRemoveRole s uid r).2
  | .toggleAdmin uid => handleToggleAdmin s uid
  | .toggleResponder uid => handleToggleResponder s uid
  | .upsertResponder uid => upsertResponderRole s uid

lemma has_role_cons (p : Nat × AppRole) (s : RoleStore) (uid : Nat) (r : AppRole) :
    has_role (p :: s) uid r
      = ((decide (p.1 = uid) && decide (p.2 = r)) || has_role s uid r) := by
  simp [has_role]

lemma has_role_deleteRoleRows {s : RoleStore} {uid uid2 : Nat} {r r2 : AppRole}
    (hr : r ≠ r2) (h : has_role s uid r = true) :
    has_role (deleteRoleRows s uid2 r2) uid r = true := by
  simp only [has_role, List.any_eq_true, Bool.and_eq_true, decide_eq_true_eq] at h ⊢
  obtain ⟨p, hp, h1, h2⟩ := h
  refine ⟨p, List.mem_filter.mpr ⟨hp, ?_⟩, h1, h2⟩
  simp [h2, hr]

lemma has_role_of_cons {s : RoleStore} {uid uid2 : Nat} {r r2 : AppRole}
    (h : has_role s uid r = true) :
    has_role ((uid2, r2) :: s) uid r = true := by
  simp [has_role_cons, h]

lemma employee_preserved_applyRoleOp {s : RoleStore} {uid : Nat}
    (h : has_role s uid AppRole.employee = true) (op : RoleOp) :
    has_role (applyRoleOp s op) uid AppRole.employee = true := by
  cases op with
  | addRole uid2 r =>
    simp only [applyRoleOp, handleAddRole]
    split
    · exact h
    · exact has_role_of_cons h
  | removeRole uid2 r =>
    simp only [applyRoleOp, handleRemoveRole]
    split
    · exact h
    · next hr =>
      exact has_role_deleteRoleRows (fun hh => hr hh.symm) h
  | toggleAdmin uid2 =>
    simp only [applyRoleOp, handleToggleAdmin]
    split
    · exact has_role_deleteRoleRows (by decide) h
    · exact has_role_of_cons h
  | toggleResponder uid2 =>
    simp only [applyRoleOp, handleToggleResponder]
    split
    · exact has_role_deleteRoleRows (by decide) h
    · exact has_role_of_cons h
  | upsertResponder uid2 =>
    simp only [applyRoleOp, upsertResponderRole]
    split
    · exact h
    · exact has_role_of_cons h

lemma employee_preserved_foldl {uid : Nat} (ops : List RoleOp) :
    ∀ {s : RoleStore}, has_role s uid AppRole.employee = true →
      has_role (ops.foldl applyRoleOp s) uid AppRole.employee = true := by
  induction ops with
  | nil => exact fun h => h
  | cons op rest ih =>
    intro s h
    exact ih (employee_preserved_applyRoleOp h op)

/-- C5: removing the `employee` role is rejected for every user and
every acting identity — `handleRemoveRole` returns the rejection flag
and leaves the store untouched without issuing a delete — and across
any sequence of the repository's role operations a user who has the
`employee` role keeps it. -/
theorem employee_role_never_removed (s : RoleStore) (uid : Nat) :
    handleRemoveRole s uid AppRole.employee = (false, s) ∧
    (∀ ops : List RoleOp, has_role s uid AppRole.employee = true →
      has_role (ops.foldl applyRoleOp s) uid AppRole.employee = true) := by
  constructor
  · simp [handleRemoveRole]
  · intro ops h
    exact employee_preserved_foldl ops h

theorem employee_role_never_removed_witness :
    handleRemoveRole [(4, AppRole.employee)] 4 AppRole.employee
        = (false, [(4, AppRole.employee)]) ∧
    has_role
        ([RoleOp.removeRole 4 AppRole.employee,
          RoleOp.toggleAdmin 4].foldl applyRoleOp [(4, AppRole.employee)])
        4 AppRole.employee = true :=
  ⟨(employee_role_never_removed [(4, AppRole.employee)] 4).1,
   (employee_role_never_removed [(4, AppRole.employee)] 4).2
     [RoleOp.removeRole 4 AppRole.employee, RoleOp.toggleAdmin 4] (by decide)⟩

/-! ### The verifying notification dispatcher
(supabase/functions/notify-department-admins/index.ts)

The handler authenticates the caller, parses `\x7b question \x7d` from the
body, re-fetches the question by id with the service-role client,
rejects a caller who is not the question's recorded author, resolves
the department, its admins and their profiles, then attempts one email
send per resolved admin profile, each wrapped in its own try/catch, and
answers with a message embedding `successCount` and `results.length`.
Email body construction (title, content excerpt, author display name)
does not influence control flow, response counts or the recipient set,
and is elided; an attempted send is recorded by its recipient email. -/

structure QuestionRow where
  id : Nat
  title : String
  content : String
  department_id : Option Nat
  is_anonymous : Bool
  author_id : Option Nat
deriving DecidableEq, Repr

structure ProfileRow where
  user_id : Nat
  email : String
  full_name : Option String
deriving DecidableEq, Repr

structure DepartmentAdminRow where
  user_id : Nat
  department_id : Nat
deriving DecidableEq, Repr

/-- Everything the handler reads: the caller's verified identity (the
`auth.getUser` outcome), the parsed `question.id` of the payload, the
service-role view of the store, and the per-recipient outcome of the
email transport (`true` = the send resolves, `false` = it throws). -/
structure NotifyEnv where
  authUser : Option Nat
  questionId : Option Nat
  questions : List QuestionRow
  departments : List (Nat × String)
  department_admins : List DepartmentAdminRow
  profiles : List ProfileRow
  sendOk : String → Bool

/-- The distinct responses of the handler (HTTP status in comments). -/
inductive NotifyResponse where
  | unauthorized                        -- 401, missing/invalid authentication
  | invalidPayload                      -- 400, missing question or id
  | questionNotFound                    -- 404
  | forbidden                           -- 403 "Unauthorized - not the question author"
  | skippedNoDepartment                 -- 200 "No department assigned, skipping"
  | noAdmins                            -- 200 "No admins for this department"
  | noProfiles                          -- 200 "No profiles for department admins"
  | summary (successCount : Nat) (total : Nat)
      -- 200, message "Notifications sent to successCount/total admins"
  | internalError                       -- 500, a core lookup threw
deriving DecidableEq, Repr

/-- `department_admins` rows of the question's department. -/
def departmentAdminsFor (env : NotifyEnv) (did : Nat) : List DepartmentAdminRow :=
  env.department_admins.filter (fun a => decide (a.department_id = did))

/-- Profiles whose `user_id` is among the department's admin ids. -/
def resolvedAdminProfiles (env : NotifyEnv) (did : Nat) : List ProfileRow :=
  env.profiles.filter
    (fun p => ((departmentAdminsFor env did).map (fun a => a.user_id)).contains p.user_id)

/-- The handler: returns the response together with the list of
attempted send recipients (empty whenever no send was attempted). -/
def notifyHandler (env : NotifyEnv) : NotifyResponse × List String :=
  match env.authUser with
  | none => (.unauthorized, [])
  | some uid =>
    match env.questionId with
    | none => (.invalidPayload, [])
    | some qid =>
      match env.questions.find? (fun q => decide (q.id = qid)) with
      | none => (.questionNotFound, [])
      | some q =>
        if q.author_id = some uid then
          match q.department_id with
          | none => (.skippedNoDepartment, [])
          | some did =>
            match env.departments.find? (fun d => decide (d.1 = did)) with
            | none => (.internalError, [])
            | some _dept =>
              if (departmentAdminsFor env did).isEmpty then (.noAdmins, [])
              else if (resolvedAdminProfiles env did).isEmpty then (.noProfiles, [])
              else
                ((.summary
                    ((((resolvedAdminProfiles env did).map (fun p => p.email)).filter
                        env.sendOk).length)
                    (((resolvedAdminProfiles env did).map (fun p => p.email)).length)),
                  (resolvedAdminProfiles env did).map (fun p => p.email))
        else (.forbidden, [])

/-- Shared: whenever the re-fetched question's author differs from the
authenticated caller, the handler answers 403 and attempts no send. -/
lemma notifyHandler_forbidden_of_not_author {env : NotifyEnv} {uid qid : Nat}
    {q : QuestionRow}
    (hauth : env.authUser = some uid)
    (hqid : env.questionId = some qid)
    (hfind : env.questions.find? (fun q' => decide (q'.id = qid)) = some q)
    (hne : q.author_id ≠ some uid) :
    notifyHandler env = (.forbidden, []) := by
  simp only [notifyHandler, hauth, hqid, hfind]
  simp [hne]

/-- C6: for every question in the store and every authenticated caller
who is not its recorded author, the dispatcher returns the Forbidden
response and attempts no email send. -/
theorem notify_forbidden_for_non_author (env : NotifyEnv) (uid qid : Nat)
    (q : QuestionRow)
    (hauth : env.authUser = some uid)
    (hqid : env.questionId = some qid)
    (hfind : env.questions.find? (fun q' => decide (q'.id = qid)) = some q)
    (hne : q.author_id ≠ some uid) :
    notifyHandler env = (.forbidden, []) :=
  notifyHandler_forbidden_of_not_author hauth hqid hfind hne

/-- A concrete store for the dispatcher theorems: question 10 by user
1 in department 20, two admin profiles, the second send failing. -/
def notifyEnvA : NotifyEnv :=
  { authUser := some 2
    questionId := some 10
    questions := [⟨10, "t", "c", some 20, false, some 1⟩]
    departments := [(20, "Engineering")]
    department_admins := [⟨5, 20⟩, ⟨6, 20⟩]
    profiles := [⟨5, "a1@x", some "A1"⟩, ⟨6, "a2@x", none⟩]
    sendOk := fun e => decide (e = "a1@x") }

theorem notify_forbidden_for_non_author_witness :
    notifyHandler notifyEnvA = (.forbidden, []) :=
  notify_forbidden_for_non_author notifyEnvA 2 10
    ⟨10, "t", "c", some 20, false, some 1⟩ rfl rfl rfl (by decide)

/-- C7: when the caller is the author and the question's department
resolves with exactly two admin profiles, the handler attempts exactly
two sends (both recipients appear in the attempted list, so one
failure does not prevent the other send), and when one send throws
while the other succeeds it still returns the normal 200 summary
reporting 1 success out of 2 attempts rather than propagating an
exception. -/
theorem notify_two_admins_one_failure (env : NotifyEnv) (uid qid did : Nat)
    (q : QuestionRow) (dept : Nat × String) (p1 p2 : ProfileRow)
    (hauth : env.authUser = some uid)
    (hqid : env.questionId = some qid)
    (hfind : env.questions.find? (fun q' => decide (q'.id = qid)) = some q)
    (hown : q.author_id = some uid)
    (hdep : q.department_id = some did)
    (hdfind : env.departments.find? (fun d => decide (d.1 = did)) = some dept)
    (hadm : (departmentAdminsFor env did).isEmpty = false)
    (hprof : resolvedAdminProfiles env did = [p1, p2])
    (hs1 : env.sendOk p1.email = true)
    (hs2 : env.sendOk p2.email = false) :
    notifyHandler env = (.summary 1 2, [p1.email, p2.email]) := by
  simp only [notifyHandler, hauth, hqid, hfind, hown, hdep, hdfind, hadm, hprof]
  simp [hs1, hs2]

theorem notify_two_admins_one_failure_witness :
    notifyHandler { notifyEnvA with authUser := some 1 }
      = (.summary 1 2, ["a1@x", "a2@x"]) :=
  notify_two_admins_one_failure { notifyEnvA with authUser := some 1 }
    1 10 20 ⟨10, "t", "c", some 20, false, some 1⟩ (20, "Engineering")
    ⟨5, "a1@x", some "A1"⟩ ⟨6, "a2@x", none⟩
    rfl rfl rfl rfl rfl rfl (by decide) (by decide) (by decide) (by decide)

/-- C9: whenever the dispatcher answers with the send summary (the 200
response whose message embeds `successCount` and `total`), the
embedded `total` is the number of attempted sends and the embedded
`successCount` is the number of attempted sends the transport
completed successfully. -/
theorem notify_summary_counts (env : NotifyEnv) (s t : Nat) (sends : List String)
    (h : notifyHandler env = (.summary s t, sends)) :
    t = sends.length ∧ s = (sends.filter env.sendOk).length := by
  unfold notifyHandler at h
  repeat' split at h
  all_goals simp_all
  obtain ⟨⟨hs, ht⟩, hsends⟩ := h
  subst hsends
  refine ⟨?_, hs.symm⟩
  simpa using ht.symm

theorem notify_summary_counts_witness :
    (2 : Nat) = (["a1@x", "a2@x"] : List String).length ∧
    (1 : Nat) =
      ((["a1@x", "a2@x"] : List String).filter
        ({ notifyEnvA with authUser := some 1 } : NotifyEnv).sendOk).length :=
  notify_summary_counts { notifyEnvA with authUser := some 1 } 1 2
    ["a1@x", "a2@x"] (by decide)

/-- C10: the question-creation policy forces an anonymous question's
author to be recorded as NULL, and the dispatcher's author-equality
check can never accept a NULL author, so for every anonymous question
every authenticated caller — its creator included — receives Forbidden
and no department-admin email is ever attempted for it. -/
theorem notify_forbidden_for_anonymous_question :
    (∀ caller author, canInsertQuestion caller true author = true → author = none) ∧
    (∀ (env : NotifyEnv) (uid qid : Nat) (q : QuestionRow),
      env.authUser = some uid →
      env.questionId = some qid →
      env.questions.find? (fun q' => decide (q'.id = qid)) = some q →
      q.author_id = none →
      notifyHandler env = (.forbidden, [])) := by
  constructor
  · intro caller author h
    simpa [canInsertQuestion, Option.isNone_iff_eq_none] using h
  · intro env uid qid q hauth hqid hfind hnone
    exact notifyHandler_forbidden_of_not_author hauth hqid hfind (by simp [hnone])

/-- A concrete anonymous question state: author NULL, caller 1. -/
def notifyEnvAnon : NotifyEnv :=
  { notifyEnvA with
    authUser := some 1
    questions := [⟨10, "t", "c", some 20, true, none⟩] }

theorem notify_forbidden_for_anonymous_question_witness :
    canInsertQuestion 1 true none = true ∧
    notifyHandler notifyEnvAnon = (.forbidden, []) :=
  ⟨by decide,
   notify_forbidden_for_anonymous_question.2 notifyEnvAnon 1 10
     ⟨10, "t", "c", some 20, true, none⟩ rfl rfl rfl rfl⟩

/-! ### Profiles read access

Final SELECT policies on `public.profiles` (Postgres ORs the policies
of a command): "Users can view their own profile"
(`auth.uid() = user_id`), "Admins can view all profiles"
(`has_role(auth.uid(), 'admin')`), and — added by the migration that
recreated `profiles_public` with `security_invoker = on` —
"Authenticated users can view profiles via public view" with
`USING (true)`. The last policy attaches to the `profiles` table
itself, so it also authorizes direct selects of full rows. The
`profiles_public` view projects the row without its `email` column. -/

/-- Whether an authenticated caller may SELECT a `profiles` row (the
full row, `email` included): the OR of the three SELECT policies. -/
def profilesSelectAllowed (s : RoleStore) (callerUid : Nat) (row : ProfileRow) : Bool :=
  decide (callerUid = row.user_id)
    || has_role s callerUid AppRole.admin
    || true

/-- The `profiles_public` projection of a row: no `email` column. -/
structure ProfilePublicRow where
  user_id : Nat
  full_name : Option String
deriving DecidableEq, Repr

def profiles_public_row (p : ProfileRow) : ProfilePublicRow :=
  { user_id := p.user_id, full_name := p.full_name }

/-- C8 evaluation: caller 1 holds only the `employee` role (not
admin), yet the SELECT policies admit reading user 2's full profile
row, `email` included, because the policy added for the public view
uses `USING (true)` on the table; the restricted projection is (as the
claim also says) readable by any authenticated identity. -/
theorem profiles_email_readable_by_non_admin :
    has_role [(1, AppRole.employee)] 1 AppRole.admin = false ∧
    profilesSelectAllowed [(1, AppRole.employee)] 1
        ⟨2, "other@example.com", some "Other"⟩ = true ∧
    profiles_public_row ⟨2, "other@example.com", some "Other"⟩
        = ⟨2, some "Other"⟩ := by
  refine ⟨by decide, by decide, rfl⟩

end AskAnswerHub
